import Mathlib

/-!
Verification of the application state machine in src/main.rs of the
iced_gui_tutorial repository: the state record (theme, page, login field
buffer), the message type, the constructor, and the update function are
embedded shallowly; the theorems below settle the specified properties of
the dispatcher.
-/

/-- The theme type of the iced library (version 0.12): two built-in themes
and a custom variant carrying user-supplied palette data, modelled here by
an identifier. The repository only ever names Light and Dark. -/
inductive Theme where
  | Light : Theme
  | Dark : Theme
  | Custom : Nat → Theme
deriving DecidableEq, Repr

/-- enum Page from src/main.rs: each variant is a view of the app. -/
inductive Page where
  | Login : Page
  | Register : Page
deriving DecidableEq, Repr

/-- struct LoginField from src/main.rs: the two text input buffers. -/
structure LoginField where
  email : String
  password : String
deriving DecidableEq, Repr

/-- struct RustUI from src/main.rs: the whole application state. -/
structure RustUI where
  theme : Theme
  page : Page
  login_field : LoginField
deriving DecidableEq, Repr

/-- enum Message from src/main.rs: the four event variants the dispatcher
consumes. -/
inductive Message where
  | ToggleTheme : Message
  | LoginSubmit : Message
  | Router : String → Message
  | LoginFieldChange : String → String → Message
deriving DecidableEq, Repr

/-- RustUI::new from src/main.rs: dark theme, login page, empty buffers. -/
def RustUI.new : RustUI :=
  { theme := Theme.Dark
    page := Page.Login
    login_field := { email := "", password := "" } }

/-- RustUI::update from src/main.rs, translated branch by branch. In the
Router branch the source line for the Register route reads
    let _ = self.page == Page::Register;
which evaluates a comparison and discards it, so that branch leaves the
state unchanged. -/
def RustUI.update (s : RustUI) (m : Message) : RustUI :=
  match m with
  | Message.ToggleTheme =>
      { s with theme := if s.theme = Theme.Light then Theme.Dark else Theme.Light }
  | Message.LoginFieldChange email password =>
      { s with login_field := { email := email, password := password } }
  | Message.LoginSubmit => s
  | Message.Router route =>
      if route = "Login" then { s with page := Page.Login }
      else if route = "Register" then s
      else s

/-- Dispatching a list of messages in order starting from the constructor
state: the set of states reachable by the running program. -/
def RustUI.run (ms : List Message) : RustUI :=
  ms.foldl RustUI.update RustUI.new

theorem update_theme_builtin (s : RustUI) (m : Message)
    (h : s.theme = Theme.Light ∨ s.theme = Theme.Dark) :
    (RustUI.update s m).theme = Theme.Light ∨ (RustUI.update s m).theme = Theme.Dark := by
  cases m with
  | ToggleTheme =>
      by_cases hl : s.theme = Theme.Light <;> simp [RustUI.update, hl]
  | LoginSubmit => exact h
  | LoginFieldChange e p => exact h
  | Router r =>
      by_cases h1 : r = "Login" <;> by_cases h2 : r = "Register" <;>
        simp [RustUI.update, h1, h2] <;> exact h

theorem foldl_theme_builtin (s : RustUI) (ms : List Message)
    (h : s.theme = Theme.Light ∨ s.theme = Theme.Dark) :
    (ms.foldl RustUI.update s).theme = Theme.Light ∨
      (ms.foldl RustUI.update s).theme = Theme.Dark := by
  induction ms generalizing s with
  | nil => exact h
  | cons m ms ih => exact ih (RustUI.update s m) (update_theme_builtin s m h)

/-- C1: behaviour of the code at the failing input. From the constructor
state, whose page is Login, dispatching Router "Register" leaves the page
at Login, because the Register branch of the source evaluates a comparison
instead of performing an assignment; the claim says the page becomes
Register. -/
theorem router_register_from_login_stays_login :
    (RustUI.update RustUI.new (Message.Router "Register")).page = Page.Login := by
  decide

/-- C2: behaviour of the code on the end-to-end scenario. Starting from the
constructor state and dispatching LoginFieldChange, ToggleTheme, then
Router "Register" in order, the final state has theme Light and the buffer
filled as expected, but its page is still Login rather than Register,
because the Register route is a no-op in the source. -/
theorem end_to_end_scenario_final_state :
    RustUI.run
        [Message.LoginFieldChange "a@b.com" "pw", Message.ToggleTheme,
          Message.Router "Register"] =
      { theme := Theme.Light
        page := Page.Login
        login_field := { email := "a@b.com", password := "pw" } } := by
  decide

/-- C3: dispatching Router with a route string that is neither "Login" nor
"Register" leaves the whole state unchanged: no field is modified. -/
theorem router_unknown_is_noop (s : RustUI) (route : String)
    (h1 : route ≠ "Login") (h2 : route ≠ "Register") :
    RustUI.update s (Message.Router route) = s := by
  simp [RustUI.update, h1, h2]

/-- Witness for C3 at the concrete route "Unknown" and the constructor
state. -/
theorem router_unknown_is_noop_witness :
    RustUI.update RustUI.new (Message.Router "Unknown") = RustUI.new :=
  router_unknown_is_noop RustUI.new "Unknown" (by decide) (by decide)

/-- C4, counterexample to the claim as stated: from a state whose theme is
a custom theme, dispatching ToggleTheme twice does not restore the theme
(it ends at Dark), so the toggle is not an involution on every state of
the source theme type. -/
theorem toggle_twice_not_involutive_on_custom :
    (RustUI.update
        (RustUI.update
          { theme := Theme.Custom 0
            page := Page.Login
            login_field := { email := "", password := "" } }
          Message.ToggleTheme)
        Message.ToggleTheme).theme ≠ Theme.Custom 0 := by
  decide

/-- C4, amended: for every state whose theme is one of the two built-in
themes Light and Dark — which covers every state the program can reach —
dispatching ToggleTheme twice returns the theme to its original value. -/
theorem toggle_twice_involutive_on_builtin (s : RustUI)
    (h : s.theme = Theme.Light ∨ s.theme = Theme.Dark) :
    (RustUI.update (RustUI.update s Message.ToggleTheme) Message.ToggleTheme).theme
      = s.theme := by
  rcases h with h | h <;> simp [RustUI.update, h]

/-- Witness for the amended C4 at the constructor state, whose theme is
Dark. -/
theorem toggle_twice_involutive_on_builtin_witness :
    (RustUI.update (RustUI.update RustUI.new Message.ToggleTheme) Message.ToggleTheme).theme
      = RustUI.new.theme :=
  toggle_twice_involutive_on_builtin RustUI.new (Or.inr rfl)

/-- C5: dispatching LoginFieldChange with payload (e, p) sets the email
buffer to e and the password buffer to p exactly, for every prior state:
both fields are overwritten, nothing is merged. -/
theorem login_field_change_overwrites (s : RustUI) (e p : String) :
    (RustUI.update s (Message.LoginFieldChange e p)).login_field.email = e ∧
      (RustUI.update s (Message.LoginFieldChange e p)).login_field.password = p :=
  ⟨rfl, rfl⟩

/-- C6: dispatching LoginSubmit from any state yields exactly the same
state: no field is changed. -/
theorem login_submit_is_noop (s : RustUI) :
    RustUI.update s Message.LoginSubmit = s :=
  rfl

/-- C7: the constructor state has theme Dark, page Login, and both buffer
fields empty. -/
theorem initial_state_defaults :
    RustUI.new.theme = Theme.Dark ∧ RustUI.new.page = Page.Login ∧
      RustUI.new.login_field.email = "" ∧ RustUI.new.login_field.password = "" :=
  ⟨rfl, rfl, rfl, rfl⟩

/-- C8: the dispatcher is total: for every state and every message variant
the update function is defined and produces a state. -/
theorem update_total (s : RustUI) (m : Message) :
    ∃ t : RustUI, RustUI.update s m = t :=
  ⟨RustUI.update s m, rfl⟩

/-- C9: frame conditions of each event variant: ToggleTheme leaves the page
and the login buffer unchanged, LoginFieldChange leaves the theme and the
page unchanged, and Router leaves the theme and the login buffer unchanged,
for every state and every payload. -/
theorem update_frame_conditions (s : RustUI) :
    ((RustUI.update s Message.ToggleTheme).page = s.page ∧
      (RustUI.update s Message.ToggleTheme).login_field = s.login_field) ∧
    (∀ e p : String,
      (RustUI.update s (Message.LoginFieldChange e p)).theme = s.theme ∧
        (RustUI.update s (Message.LoginFieldChange e p)).page = s.page) ∧
    (∀ r : String,
      (RustUI.update s (Message.Router r)).theme = s.theme ∧
        (RustUI.update s (Message.Router r)).login_field = s.login_field) := by
  refine ⟨⟨rfl, rfl⟩, fun e p => ⟨rfl, rfl⟩, fun r => ?_⟩
  by_cases h1 : r = "Login" <;> by_cases h2 : r = "Register" <;>
    simp [RustUI.update, h1, h2]

/-- C10: every state reachable from the constructor state by dispatching
any sequence of messages has one of the two built-in themes Light or Dark;
no custom theme is ever produced, since the constructor sets Dark and the
toggle maps Light to Dark and every other theme to Light. -/
theorem reachable_theme_is_builtin (ms : List Message) :
    (RustUI.run ms).theme = Theme.Light ∨ (RustUI.run ms).theme = Theme.Dark :=
  foldl_theme_builtin RustUI.new ms (Or.inr rfl)
